import Mathlib

/-!
Shallow embedding of the session state machine of `src/frontend/src/App.js`
(facturationAi). The component keeps five state cells (`prompt`, `docType`,
`items`, `loading`, `error`) and exposes three operations: `handleParse`,
`handleItemChange`, and `handleGeneratePDF`. Network effects (the two
`fetch` calls) are modelled by explicit outcome values passed to the
handlers; each handler is a pure function from the pre-state and the
network outcome to the post-state.
-/

set_option autoImplicit false

namespace FacturationAi

/-- A JavaScript field value as it occurs in an item row: a string (from an
`input` element) or a number (from the parse service's JSON). -/
inductive JSVal where
  | str (s : String)
  | num (n : Int)
  deriving DecidableEq

/-- A line item is a JavaScript object: an ordered list of key/value pairs
with distinct keys (keys seen in the app: `reference`, `name`, `quantity`,
`unit_price`, plus any key `handleItemChange` is called with). -/
abbrev Item := List (String × JSVal)

/-- Property read `item[k]` on a JavaScript object encoded as a key/value
list: the value at the first matching key, or absent. -/
def getVal : Item → String → Option JSVal
  | [], _ => none
  | (k, w) :: rest, g => if k == g then some w else getVal rest g

/-- The spread update `\x7b ...item, [field]: value \x7d` from
`handleItemChange` (line 38): if the key is present its value is replaced
in place (object keys are unique, so the first hit is the only one);
otherwise the new key is appended at the end, matching JavaScript
property-insertion order. -/
def setKey : Item → String → JSVal → Item
  | [], f, v => [(f, v)]
  | (k, w) :: rest, f, v => if k == f then (f, v) :: rest else (k, w) :: setKey rest f v

/-- `items.map((item, i) => i === idx ? \x7b ...item, [field]: value \x7d : item)`
with the running index `i` made explicit. -/
def mapIdxUpd (idx : Nat) (f : String) (v : JSVal) : Nat → List Item → List Item
  | _, [] => []
  | i, it :: rest => (if i = idx then setKey it f v else it) :: mapIdxUpd idx f v (i + 1) rest

/-- `handleItemChange(idx, field, value)` (App.js lines 37-39), with the
`items` state cell passed explicitly. -/
def handleItemChange (items : List Item) (idx : Nat) (f : String) (v : JSVal) : List Item :=
  mapIdxUpd idx f v 0 items

/-- `DOC_TYPES` (App.js lines 4-9). -/
def DOC_TYPES : List String :=
  ["Facture", "Devis", "Bon de commande", "Bon de livraison"]

/-- The five `useState` cells of the `App` component (App.js lines 12-16). -/
structure AppState where
  prompt : String
  docType : String
  items : List Item
  loading : Bool
  error : String
  deriving DecidableEq

/-- The initial component state (App.js lines 12-16): empty prompt, first
document type, empty items, not loading, no error. -/
def initState : AppState :=
  { prompt := "", docType := DOC_TYPES.getD 0 "", items := [], loading := false, error := "" }

/-- The session status of the spec, derived from the `loading` flag and the
`error` message: Loading while the busy flag is set, Error when an error
message is displayed, Idle otherwise. -/
inductive Status where
  | Idle
  | Loading
  | Error (msg : String)
  deriving DecidableEq

/-- The derived status of a component state. -/
def AppState.status (s : AppState) : Status :=
  if s.loading then Status.Loading
  else if s.error = "" then Status.Idle
  else Status.Error s.error

/-- Outcome of `await res.json()` on the parse response: the body is not
JSON (the promise rejects), or it is JSON whose `items` field is either a
truthy list of items or absent/falsy. -/
inductive Body where
  | notJson
  | json (items : Option (List Item))

/-- Outcome of the parse `fetch` (App.js lines 23-28): the request itself
rejects (network error), or a response arrives carrying its `ok` flag
(which `handleParse` never reads) and a body. -/
inductive ParseNet where
  | netError
  | response (ok : Bool) (body : Body)

/-- The state updates `handleParse` performs before the request is issued
(App.js lines 19-21): `setLoading(true); setError(''); setItems([])`. -/
def parseBegin (s : AppState) : AppState :=
  { s with loading := true, error := "", items := [] }

/-- The remainder of `handleParse` (App.js lines 22-34): on a JSON body
with a truthy `items` field the items are stored; on a JSON body without
one the error becomes "No items found."; a rejected fetch or a non-JSON
body is caught and the error becomes "Error parsing prompt.". In every
case `setLoading(false)` runs last. The response's `ok` flag is ignored:
the code has no `res.ok` check on this path. -/
def parseStep (s : AppState) : ParseNet → AppState
  | ParseNet.netError => { s with error := "Error parsing prompt.", loading := false }
  | ParseNet.response _ Body.notJson =>
      { s with error := "Error parsing prompt.", loading := false }
  | ParseNet.response _ (Body.json none) =>
      { s with error := "No items found.", loading := false }
  | ParseNet.response _ (Body.json (some its)) =>
      { s with items := its, loading := false }

/-- `handleParse` (App.js lines 18-35) as a function of the pre-state and
the network outcome. -/
def handleParse (s : AppState) (r : ParseNet) : AppState :=
  parseStep (parseBegin s) r

/-- A user click on the Parse button (App.js line 77): the button carries
`disabled=\x7bloading || !prompt\x7d`, so the click runs `handleParse` only
when the component is not loading and the prompt is non-empty. The second
component is the request body's `prompt` field when a request is sent
(`JSON.stringify(\x7b prompt \x7d)`, line 26), `none` when no request goes
out. -/
def parseTrigger (s : AppState) (r : ParseNet) : AppState × Option String :=
  if s.loading || s.prompt == "" then (s, none)
  else (handleParse s r, some s.prompt)

/-- Outcome of the export `fetch` (App.js lines 45-51): the request rejects,
or a response arrives with its `ok` flag; `blobOk` records whether the
`res.blob()`/object-URL/download steps complete without throwing. -/
inductive ExportNet where
  | netError
  | response (ok : Bool) (blobOk : Bool)

/-- The paths of `handleGeneratePDF` the spec calls failures: a rejected
fetch, a non-2xx response (the `if (!res.ok) throw` on line 50), or a throw
in the blob/download steps. -/
def ExportNet.fails : ExportNet → Bool
  | ExportNet.netError => true
  | ExportNet.response ok blobOk => !(ok && blobOk)

/-- The state updates `handleGeneratePDF` performs before the request is
issued (App.js lines 42-43): `setLoading(true); setError('')`. -/
def pdfBegin (s : AppState) : AppState :=
  { s with loading := true, error := "" }

/-- The remainder of `handleGeneratePDF` (App.js lines 44-61): a non-ok
response or any throw is caught and sets the error "Error generating PDF.";
on success the blob is delivered as a download named
`docType ++ ".pdf"` (line 55). `setLoading(false)` runs last on every path.
The second component is the suggested filename of the delivered file, if
any. -/
def pdfStep (s : AppState) : ExportNet → AppState × Option String
  | ExportNet.netError =>
      ({ s with error := "Error generating PDF.", loading := false }, none)
  | ExportNet.response ok blobOk =>
      if ok && blobOk then
        ({ s with loading := false }, some (s.docType ++ ".pdf"))
      else
        ({ s with error := "Error generating PDF.", loading := false }, none)

/-- `handleGeneratePDF` (App.js lines 41-62) as a function of the pre-state
and the network outcome; the second component is the downloaded filename. -/
def handleGeneratePDF (s : AppState) (r : ExportNet) : AppState × Option String :=
  pdfStep (pdfBegin s) r

/-! ### Helper lemmas about the item update -/

theorem getVal_setKey_same (it : Item) (f : String) (v : JSVal) :
    getVal (setKey it f v) f = some v := by
  induction it with
  | nil => simp [setKey, getVal]
  | cons kw rest ih =>
    obtain ⟨k, w⟩ := kw
    by_cases h : k == f
    · simp [setKey, h, getVal]
    · simp [setKey, h, getVal, ih]

theorem getVal_setKey_other (it : Item) (f g : String) (v : JSVal) (hgf : g ≠ f) :
    getVal (setKey it f v) g = getVal it g := by
  have hfg : (f == g) = false := by
    simp [beq_eq_false_iff_ne]
    exact fun h => hgf h.symm
  induction it with
  | nil => simp [setKey, getVal, hfg]
  | cons kw rest ih =>
    obtain ⟨k, w⟩ := kw
    by_cases h : k == f
    · have hk : k = f := by simpa using h
      simp [setKey, h, getVal, hfg, hk]
    · simp [setKey, h, getVal, ih]

theorem mapIdxUpd_length (idx : Nat) (f : String) (v : JSVal) (i : Nat) (l : List Item) :
    (mapIdxUpd idx f v i l).length = l.length := by
  induction l generalizing i with
  | nil => simp [mapIdxUpd]
  | cons it rest ih => simp [mapIdxUpd, ih]

theorem mapIdxUpd_getD (idx : Nat) (f : String) (v : JSVal) (i : Nat) (l : List Item)
    (j : Nat) (d : Item) :
    (mapIdxUpd idx f v i l).getD j d =
      if j < l.length ∧ i + j = idx then setKey (l.getD j d) f v else l.getD j d := by
  induction l generalizing i j with
  | nil => simp [mapIdxUpd]
  | cons it rest ih =>
    cases j with
    | zero =>
      by_cases h : i = idx <;> simp [mapIdxUpd, h]
    | succ j' =>
      have := ih (i + 1) j'
      simp only [mapIdxUpd, List.getD_cons_succ, List.length_cons, this]
      by_cases hj : j' < rest.length
      · by_cases hi : i + 1 + j' = idx
        · rw [if_pos ⟨hj, hi⟩, if_pos ⟨by omega, by omega⟩]
        · rw [if_neg (by omega), if_neg (by omega)]
      · rw [if_neg (by omega), if_neg (by omega)]

theorem mapIdxUpd_out (idx : Nat) (f : String) (v : JSVal) :
    ∀ (i : Nat) (l : List Item), l.length + i ≤ idx → mapIdxUpd idx f v i l = l := by
  intro i l
  induction l generalizing i with
  | nil => intro _; simp [mapIdxUpd]
  | cons it rest ih =>
    intro h
    simp only [List.length_cons] at h
    have hi : i ≠ idx := by omega
    simp [mapIdxUpd, hi, ih (i + 1) (by omega)]

/-! ### Claim theorems -/

/-- Claim C1: every parse attempt and every export attempt, whatever path
the network outcome takes, ends with the `loading` flag false; no operation
leaves the session in the Loading state. -/
theorem c1_loading_always_cleared (s : AppState) (r : ParseNet) (r' : ExportNet) :
    (handleParse s r).loading = false ∧ (handleGeneratePDF s r').1.loading = false := by
  constructor
  · cases r with
    | netError => rfl
    | response ok body =>
      cases body with
      | notJson => rfl
      | json its => cases its <;> rfl
  · cases r' with
    | netError => rfl
    | response ok blobOk => cases ok <;> cases blobOk <;> rfl

/-- Claim C2: for a valid index and a field name among the item fields,
`handleItemChange` keeps the list length and order, sets exactly that field
of the item at the index to the given value, and leaves every other item
and every other field of the changed item identical. -/
theorem c2_update_one_field (items : List Item) (idx : Nat) (f : String) (v : JSVal)
    (hidx : idx < items.length)
    (_hf : f ∈ ["reference", "name", "quantity", "unit_price"]) :
    (handleItemChange items idx f v).length = items.length
    ∧ (∀ j, j ≠ idx → (handleItemChange items idx f v).getD j [] = items.getD j [])
    ∧ getVal ((handleItemChange items idx f v).getD idx []) f = some v
    ∧ ∀ g, g ≠ f →
        getVal ((handleItemChange items idx f v).getD idx []) g
          = getVal (items.getD idx []) g := by
  have hat : (handleItemChange items idx f v).getD idx [] = setKey (items.getD idx []) f v := by
    rw [handleItemChange, mapIdxUpd_getD, if_pos ⟨hidx, by omega⟩]
  refine ⟨mapIdxUpd_length idx f v 0 items, ?_, ?_, ?_⟩
  · intro j hj
    rw [handleItemChange, mapIdxUpd_getD, if_neg (by omega)]
  · rw [hat, getVal_setKey_same]
  · intro g hg
    rw [hat, getVal_setKey_other _ _ _ _ hg]

/-- Witness for C2 at a concrete item list, index 0 and field `name`. -/
theorem c2_update_one_field_witness :
    0 < ([[("name", JSVal.str "a"), ("quantity", JSVal.num 2)]] : List Item).length
    ∧ "name" ∈ ["reference", "name", "quantity", "unit_price"]
    ∧ getVal ((handleItemChange [[("name", JSVal.str "a"), ("quantity", JSVal.num 2)]]
        0 "name" (JSVal.str "b")).getD 0 []) "name" = some (JSVal.str "b") :=
  ⟨by decide, by decide,
    (c2_update_one_field [[("name", JSVal.str "a"), ("quantity", JSVal.num 2)]]
      0 "name" (JSVal.str "b") (by decide) (by decide)).2.2.1⟩

/-- Claim C3: a parse response whose JSON body has `items: []` ends with an
empty item table and status Idle, while a JSON body without an `items`
field ends with status Error "No items found." and an empty table, for any
HTTP `ok` flag. -/
theorem c3_empty_items_vs_missing_items (s : AppState) (ok : Bool) :
    (handleParse s (ParseNet.response ok (Body.json (some [])))).items = []
    ∧ (handleParse s (ParseNet.response ok (Body.json (some [])))).status = Status.Idle
    ∧ (handleParse s (ParseNet.response ok (Body.json none))).status
        = Status.Error "No items found."
    ∧ (handleParse s (ParseNet.response ok (Body.json none))).items = [] := by
  refine ⟨rfl, ?_, ?_, rfl⟩ <;> simp [handleParse, parseStep, parseBegin, AppState.status]

/-- Claim C4: every failing export attempt (rejected fetch, non-2xx
response, or a throw in the blob/download steps) ends with status Error
"Error generating PDF.", the item list exactly as before, and no file
delivered. -/
theorem c4_export_failure_keeps_items (s : AppState) (r : ExportNet)
    (h : r.fails = true) :
    (handleGeneratePDF s r).1.status = Status.Error "Error generating PDF."
    ∧ (handleGeneratePDF s r).1.items = s.items
    ∧ (handleGeneratePDF s r).2 = none := by
  cases r with
  | netError => refine ⟨?_, rfl, rfl⟩; simp [handleGeneratePDF, pdfStep, pdfBegin, AppState.status]
  | response ok blobOk =>
    cases ok <;> cases blobOk <;>
      simp_all [ExportNet.fails, handleGeneratePDF, pdfStep, pdfBegin, AppState.status]

/-- Witness for C4 at the initial state and a rejected export fetch. -/
theorem c4_export_failure_keeps_items_witness :
    ExportNet.fails ExportNet.netError = true
    ∧ (handleGeneratePDF initState ExportNet.netError).1.status
        = Status.Error "Error generating PDF." :=
  ⟨by decide, (c4_export_failure_keeps_items initState ExportNet.netError (by decide)).1⟩

/-- Claim C5: every invocation of parse first sets the loading flag, clears
the error and empties the item list, and only then issues the request:
`handleParse` factors through `parseBegin`. -/
theorem c5_parse_clears_state_first (s : AppState) (r : ParseNet) :
    (parseBegin s).loading = true ∧ (parseBegin s).error = "" ∧ (parseBegin s).items = []
    ∧ handleParse s r = parseStep (parseBegin s) r := by
  exact ⟨rfl, rfl, rfl, rfl⟩

/-- Counterexample to claim C6: the parse handler never reads the HTTP `ok`
flag, so a non-2xx response whose JSON body carries an `items` list ends
with status Idle and a filled table, not with status Error
"Error parsing prompt." and empty items as the claim requires. -/
theorem c6_counterexample :
    (handleParse
        { prompt := "2x Widget A", docType := "Facture", items := [],
          loading := false, error := "" }
        (ParseNet.response false (Body.json (some [[("name", JSVal.str "Widget A")]])))).status
      = Status.Idle
    ∧ (handleParse
        { prompt := "2x Widget A", docType := "Facture", items := [],
          loading := false, error := "" }
        (ParseNet.response false (Body.json (some [[("name", JSVal.str "Widget A")]])))).items
      = [[("name", JSVal.str "Widget A")]]
    ∧ ¬ (handleParse
        { prompt := "2x Widget A", docType := "Facture", items := [],
          loading := false, error := "" }
        (ParseNet.response false (Body.json (some [[("name", JSVal.str "Widget A")]])))).status
      = Status.Error "Error parsing prompt." := by
  decide

/-- Claim C6 as amended: the parse handler ends with status Error
"Error parsing prompt." and empty items exactly when the fetch rejects or
the body is not JSON; the HTTP status is never inspected, so a non-2xx
response with a JSON body is processed by its content (items present gives
a filled table and no error, items absent gives "No items found."). -/
theorem c6_amended_parse_ignores_http_status (s : AppState) (ok : Bool) (its : List Item) :
    (handleParse s ParseNet.netError).status = Status.Error "Error parsing prompt."
    ∧ (handleParse s ParseNet.netError).items = []
    ∧ (handleParse s (ParseNet.response ok Body.notJson)).status
        = Status.Error "Error parsing prompt."
    ∧ (handleParse s (ParseNet.response ok Body.notJson)).items = []
    ∧ (handleParse s (ParseNet.response false (Body.json (some its)))).items = its
    ∧ (handleParse s (ParseNet.response false (Body.json (some its)))).error = ""
    ∧ (handleParse s (ParseNet.response false (Body.json none))).status
        = Status.Error "No items found." := by
  refine ⟨?_, rfl, ?_, rfl, rfl, rfl, ?_⟩ <;>
    simp [handleParse, parseStep, parseBegin, AppState.status]

/-- Claim C7: with an empty prompt the Parse button is disabled, so
triggering parse sends no request and changes no component of the state. -/
theorem c7_empty_prompt_noop (s : AppState) (r : ParseNet) (h : s.prompt = "") :
    parseTrigger s r = (s, none) := by
  simp [parseTrigger, h]

/-- Witness for C7 at the initial state. -/
theorem c7_empty_prompt_noop_witness :
    initState.prompt = "" ∧ parseTrigger initState ParseNet.netError = (initState, none) :=
  ⟨rfl, c7_empty_prompt_noop initState ParseNet.netError rfl⟩

/-- Counterexample to claim C8: at an out-of-range index `handleItemChange`
returns the unchanged list normally instead of failing with OutOfRange, and
at an unknown field name it returns an updated list in which the item
gained that key, instead of failing with InvalidArgument. -/
theorem c8_counterexample :
    handleItemChange [[("name", JSVal.str "a")]] 5 "name" (JSVal.str "b")
      = [[("name", JSVal.str "a")]]
    ∧ handleItemChange [[("name", JSVal.str "a")]] 0 "bogus" (JSVal.str "v")
      = [[("name", JSVal.str "a"), ("bogus", JSVal.str "v")]] := by
  decide

/-- Claim C8 as amended: for an index that is not a valid position
`handleItemChange` is a silent no-op returning the list unchanged (no
failure is signalled), and for any field name, known or not, at a valid
index it sets that key on the item at the index. -/
theorem c8_amended_silent_noop (items : List Item) (idx : Nat) (f : String) (v : JSVal) :
    (items.length ≤ idx → handleItemChange items idx f v = items)
    ∧ (idx < items.length →
        (handleItemChange items idx f v).getD idx [] = setKey (items.getD idx []) f v) := by
  constructor
  · intro h
    exact mapIdxUpd_out idx f v 0 items (by omega)
  · intro h
    rw [handleItemChange, mapIdxUpd_getD, if_pos ⟨h, by omega⟩]

/-- Witness for the amended C8 at a one-item list, once with index 5 (out of
range) and once with index 0 (in range). -/
theorem c8_amended_silent_noop_witness :
    (([[("name", JSVal.str "a")]] : List Item).length ≤ 5
      ∧ handleItemChange [[("name", JSVal.str "a")]] 5 "reference" (JSVal.str "r")
          = [[("name", JSVal.str "a")]])
    ∧ (0 < ([[("name", JSVal.str "a")]] : List Item).length
      ∧ (handleItemChange [[("name", JSVal.str "a")]] 0 "reference" (JSVal.str "r")).getD 0 []
          = setKey (([[("name", JSVal.str "a")]] : List Item).getD 0 []) "reference"
              (JSVal.str "r")) :=
  ⟨⟨by decide, (c8_amended_silent_noop [[("name", JSVal.str "a")]] 5 "reference"
      (JSVal.str "r")).1 (by decide)⟩,
   ⟨by decide, (c8_amended_silent_noop [[("name", JSVal.str "a")]] 0 "reference"
      (JSVal.str "r")).2 (by decide)⟩⟩

/-- Claim C9: a successful export delivers a file named from the selected
docType as docType ++ ".pdf" (so with docType "Quote" the file is
"Quote.pdf") and leaves the items and the docType unchanged. -/
theorem c9_export_filename_from_doctype (s : AppState) :
    (handleGeneratePDF s (ExportNet.response true true)).2 = some (s.docType ++ ".pdf")
    ∧ (handleGeneratePDF s (ExportNet.response true true)).1.items = s.items
    ∧ (handleGeneratePDF s (ExportNet.response true true)).1.docType = s.docType
    ∧ (s.docType = "Quote" →
        (handleGeneratePDF s (ExportNet.response true true)).2 = some "Quote.pdf") := by
  refine ⟨rfl, rfl, rfl, ?_⟩
  intro h
  simp [handleGeneratePDF, pdfStep, pdfBegin, h]

/-- Witness for C9 at a state whose docType is "Quote". -/
theorem c9_export_filename_from_doctype_witness :
    ({ prompt := "p", docType := "Quote", items := ([] : List Item),
        loading := false, error := "" } : AppState).docType = "Quote"
    ∧ (handleGeneratePDF
        { prompt := "p", docType := "Quote", items := [], loading := false, error := "" }
        (ExportNet.response true true)).2 = some "Quote.pdf" :=
  ⟨rfl, (c9_export_filename_from_doctype
    { prompt := "p", docType := "Quote", items := [], loading := false, error := "" }).2.2.2
      rfl⟩

/-- Claim C10: on every path of parse and of export, the prompt text and
the selected docType are unchanged. -/
theorem c10_prompt_doctype_frame (s : AppState) (r : ParseNet) (r' : ExportNet) :
    (handleParse s r).prompt = s.prompt
    ∧ (handleParse s r).docType = s.docType
    ∧ (handleGeneratePDF s r').1.prompt = s.prompt
    ∧ (handleGeneratePDF s r').1.docType = s.docType := by
  refine ⟨?_, ?_, ?_, ?_⟩
  · cases r with
    | netError => rfl
    | response ok body => cases body with
      | notJson => rfl
      | json its => cases its <;> rfl
  · cases r with
    | netError => rfl
    | response ok body => cases body with
      | notJson => rfl
      | json its => cases its <;> rfl
  · cases r' with
    | netError => rfl
    | response ok blobOk => cases ok <;> cases blobOk <;> rfl
  · cases r' with
    | netError => rfl
    | response ok blobOk => cases ok <;> cases blobOk <;> rfl

end FacturationAi
